import Mathlib

/-!
Verification of the ABCD (ray-transfer) matrix-optics module `abcd.py`.

The module builds 2×2 ray-transfer matrices for optical elements
(thin lens, thick lens, propagation, mirror, flat and curved interface),
transforms a Gaussian-beam q parameter by such a matrix, and relates
beam-geometry scalars (waist radius, Rayleigh range).

Floats are modelled as elements of a field (instantiated at ℝ, and at ℂ
for the q parameter); the numeric backend producing 2×2 arrays is
modelled by the structure `Mat2` with explicit multiplication.
-/

/-- A 2×2 matrix `[[a,b],[c,d]]` as produced by the numeric backend
from a nested list. -/
@[ext]
structure Mat2 (α : Type) where
  a : α
  b : α
  c : α
  d : α

namespace Mat2

/-- Matrix multiplication of 2×2 matrices (the backend operator). -/
def mul {α : Type} [Field α] (m n : Mat2 α) : Mat2 α :=
  ⟨m.a * n.a + m.b * n.c, m.a * n.b + m.b * n.d,
   m.c * n.a + m.d * n.c, m.c * n.b + m.d * n.d⟩

instance {α : Type} [Field α] : Mul (Mat2 α) :=
  ⟨Mat2.mul⟩

theorem mul_def {α : Type} [Field α] (m n : Mat2 α) :
    m * n = ⟨m.a * n.a + m.b * n.c, m.a * n.b + m.b * n.d,
             m.c * n.a + m.d * n.c, m.c * n.b + m.d * n.d⟩ :=
  rfl

/-- The 2×2 identity matrix (the backend `eye(2)`). -/
def eye {α : Type} [Field α] : Mat2 α :=
  ⟨1, 0, 0, 1⟩

/-- Determinant of a 2×2 matrix. -/
def det {α : Type} [Field α] (m : Mat2 α) : α :=
  m.a * m.d - m.b * m.c

theorem det_mul {α : Type} [Field α] (m n : Mat2 α) :
    (m * n).det = m.det * n.det := by
  simp only [mul_def, det]
  ring

end Mat2

/-- Thin lens of focal length `f`: the matrix `[[1,0],[-1/f,1]]`. -/
def lens_thin {α : Type} [Field α] (f : α) : Mat2 α :=
  ⟨1, 0, -1 / f, 1⟩

/-- Thick lens: exit-surface, slab and entry-surface matrices composed
as `m_end @ m_mid @ m_start`. -/
def lens_thick {α : Type} [Field α] (n1 n2 r1 r2 t : α) : Mat2 α :=
  let m_end : Mat2 α := ⟨1, 0, (n2 - n1) / (r2 * n1), n2 / n1⟩
  let m_mid : Mat2 α := ⟨1, t, 0, 1⟩
  let m_start : Mat2 α := ⟨1, 0, (n1 - n2) / (r1 * n2), n1 / n2⟩
  m_end * m_mid * m_start

/-- Propagation over a distance `d`: the matrix `[[1,d],[0,1]]`. -/
def propagation {α : Type} [Field α] (d : α) : Mat2 α :=
  ⟨1, d, 0, 1⟩

/-- Reflection from a flat mirror: the backend `eye(2)`. -/
def mirror {α : Type} [Field α] : Mat2 α :=
  Mat2.eye

/-- Refraction at a flat interface from index `n1` to index `n2`:
the matrix `[[1,0],[0,n1/n2]]`. -/
def interface {α : Type} [Field α] (n1 n2 : α) : Mat2 α :=
  ⟨1, 0, 0, n1 / n2⟩

/-- Curved interface with effective radius `Re`:
the matrix `[[1,0],[-2/Re,1]]`. -/
def curved_interface {α : Type} [Field α] (Re : α) : Mat2 α :=
  ⟨1, 0, -2 / Re, 1⟩

/-- Transform of the Gaussian-beam q parameter by an ABCD matrix:
`(A*q + B) / (C*q + D)` when `inverce` is false, and
`(C + D/q) / (A + B/q)` when `inverce` is true. -/
def get_new_q {α : Type} [Field α] (q : α) (m : Mat2 α) (inverce : Bool) : α :=
  let A := m.a
  let B := m.b
  let C := m.c
  let D := m.d
  if !inverce then (A * q + B) / (C * q + D)
  else (C + D / q) / (A + B / q)

/-- Division with the zero-denominator failure of the host made explicit:
`none` models the error the host raises on a zero denominator
(a ZeroDivisionError for Python scalars, a NaN or infinity under a numpy
backend); in either convention no ordinary finite value is produced. -/
noncomputable def cdiv (x y : ℂ) : Option ℂ :=
  if y = 0 then none else some (x / y)

/-- The q transform with every division checked: an input on which the
source fails with a zero denominator is sent to `none` rather than to a
junk value, the divisions being taken in the evaluation order of the
source (in the inverse branch D / q, then B / q, then the outer one). -/
noncomputable def get_new_q_checked (q : ℂ) (m : Mat2 ℂ) (inverce : Bool) : Option ℂ :=
  let A := m.a
  let B := m.b
  let C := m.c
  let D := m.d
  if !inverce then cdiv (A * q + B) (C * q + D)
  else (cdiv D q).bind fun dq =>
    (cdiv B q).bind fun bq => cdiv (C + dq) (A + bq)

/-- Waist radius from wavelength and Rayleigh range:
`sqrt(((wavelength / n) * z0) / pi)`. -/
noncomputable def get_gaussian_beams_W0 (wavelength z0 n : ℝ) : ℝ :=
  Real.sqrt (((wavelength / n) * z0) / Real.pi)

/-- Rayleigh range from wavelength and waist radius:
`(w0 ^ 2 * pi) / (wavelength / n)`. -/
noncomputable def get_gaussian_beams_Z0 (wavelength w0 n : ℝ) : ℝ :=
  (w0 ^ 2 * Real.pi) / (wavelength / n)

/-- Claim C1: for a complex q and matrix m, the transform returns
(A*q + B) / (C*q + D) in the forward branch and (C + D/q) / (A + B/q)
in the inverse branch, the denominator of the chosen branch being nonzero. -/
theorem get_new_q_branches (q : ℂ) (m : Mat2 ℂ)
    (hfwd : m.c * q + m.d ≠ 0) (hinv : m.a + m.b / q ≠ 0) :
    get_new_q q m false = (m.a * q + m.b) / (m.c * q + m.d) ∧
      get_new_q q m true = (m.c + m.d / q) / (m.a + m.b / q) :=
  ⟨rfl, rfl⟩

/-- Witness for claim C1 at q = i and m the identity matrix. -/
theorem get_new_q_branches_witness :
    ((⟨1, 0, 0, 1⟩ : Mat2 ℂ).c * Complex.I + (⟨1, 0, 0, 1⟩ : Mat2 ℂ).d ≠ 0) ∧
      ((⟨1, 0, 0, 1⟩ : Mat2 ℂ).a + (⟨1, 0, 0, 1⟩ : Mat2 ℂ).b / Complex.I ≠ 0) ∧
      (get_new_q Complex.I (⟨1, 0, 0, 1⟩ : Mat2 ℂ) false =
        ((⟨1, 0, 0, 1⟩ : Mat2 ℂ).a * Complex.I + (⟨1, 0, 0, 1⟩ : Mat2 ℂ).b) /
          ((⟨1, 0, 0, 1⟩ : Mat2 ℂ).c * Complex.I + (⟨1, 0, 0, 1⟩ : Mat2 ℂ).d)) ∧
      (get_new_q Complex.I (⟨1, 0, 0, 1⟩ : Mat2 ℂ) true =
        ((⟨1, 0, 0, 1⟩ : Mat2 ℂ).c + (⟨1, 0, 0, 1⟩ : Mat2 ℂ).d / Complex.I) /
          ((⟨1, 0, 0, 1⟩ : Mat2 ℂ).a + (⟨1, 0, 0, 1⟩ : Mat2 ℂ).b / Complex.I)) :=
  ⟨by simp, by simp,
    (get_new_q_branches Complex.I ⟨1, 0, 0, 1⟩ (by simp) (by simp)).1,
    (get_new_q_branches Complex.I ⟨1, 0, 0, 1⟩ (by simp) (by simp)).2⟩

/-- Claim C2: for nonzero n1, n2, r1, r2 and any t, the thick-lens matrix
is the product of the exit, slab and entry matrices, in that order, the
entry surface being rightmost. -/
theorem lens_thick_is_product (n1 n2 r1 r2 t : ℝ)
    (h1 : n1 ≠ 0) (h2 : n2 ≠ 0) (h3 : r1 ≠ 0) (h4 : r2 ≠ 0) :
    lens_thick n1 n2 r1 r2 t =
      (⟨1, 0, (n2 - n1) / (r2 * n1), n2 / n1⟩ : Mat2 ℝ) *
        (⟨1, t, 0, 1⟩ : Mat2 ℝ) *
        (⟨1, 0, (n1 - n2) / (r1 * n2), n1 / n2⟩ : Mat2 ℝ) :=
  rfl

/-- Witness for claim C2 at the concrete thick lens
n1 = 1, n2 = 3/2, r1 = 50, r2 = -50, t = 5. -/
theorem lens_thick_is_product_witness :
    (1 : ℝ) ≠ 0 ∧ (3 / 2 : ℝ) ≠ 0 ∧ (50 : ℝ) ≠ 0 ∧ (-50 : ℝ) ≠ 0 ∧
      lens_thick (1 : ℝ) (3 / 2) 50 (-50) 5 =
        (⟨1, 0, ((3 / 2 : ℝ) - 1) / (-50 * 1), (3 / 2 : ℝ) / 1⟩ : Mat2 ℝ) *
          (⟨1, 5, 0, 1⟩ : Mat2 ℝ) *
          (⟨1, 0, (1 - (3 / 2 : ℝ)) / (50 * (3 / 2)), 1 / (3 / 2 : ℝ)⟩ : Mat2 ℝ) :=
  ⟨one_ne_zero, by norm_num, by norm_num, by norm_num,
    lens_thick_is_product 1 (3 / 2) 50 (-50) 5 one_ne_zero (by norm_num)
      (by norm_num) (by norm_num)⟩

/-- Claim C7: propagation over distance 0 is the identity matrix, and
propagation composes additively over distances. -/
theorem propagation_additive (d1 d2 : ℝ) :
    propagation (0 : ℝ) = Mat2.eye ∧
      propagation d1 * propagation d2 = propagation (d1 + d2) := by
  constructor
  · ext <;> simp [propagation, Mat2.eye]
  · ext <;> simp [propagation, Mat2.mul_def, add_comm]

/-- Claim C8: the identity matrix leaves any complex q unchanged under
the forward q transform. -/
theorem get_new_q_eye (q : ℂ) : get_new_q q Mat2.eye false = q := by
  simp [get_new_q, Mat2.eye]

/-- Claim C9: there are a complex q and a matrix m for which the
reciprocal of the forward branch differs from the inverse branch, the
zero-denominator failure of the host being modelled by `none`. At q = 1
and m = [[1,0],[1,-1]] the forward branch divides by C*q + D = 0 and
fails, so its reciprocal produces no value, while the inverse branch
returns 0: the two expressions are not equivalent near singularities. -/
theorem get_new_q_checked_not_reciprocal :
    ∃ (q : ℂ) (m : Mat2 ℂ),
      (get_new_q_checked q m false).bind (fun v => cdiv 1 v) ≠
        get_new_q_checked q m true := by
  refine ⟨1, ⟨1, 0, 1, -1⟩, ?_⟩
  norm_num [get_new_q_checked, cdiv]
  exact fun h => Option.noConfusion h

/-- Counterexample to claim C3: at n1 = 1, n2 = 2, r1 = 1, r2 = 1, t = 0,
the determinant of the thick-lens matrix is not n1 / n2 = 1 / 2. -/
theorem lens_thick_det_counterexample :
    (lens_thick (1 : ℝ) 2 1 1 0).det ≠ 1 / 2 := by
  norm_num [lens_thick, Mat2.mul_def, Mat2.det]

/-- Claim C3 amended: for nonzero n1, n2, r1, r2 and any t, the
determinant of the thick-lens matrix equals 1. -/
theorem lens_thick_det_one (n1 n2 r1 r2 t : ℝ)
    (h1 : n1 ≠ 0) (h2 : n2 ≠ 0) (h3 : r1 ≠ 0) (h4 : r2 ≠ 0) :
    (lens_thick n1 n2 r1 r2 t).det = 1 := by
  simp only [lens_thick]
  rw [Mat2.det_mul, Mat2.det_mul]
  simp only [Mat2.det]
  field_simp

/-- Witness for the amended claim C3 at n1 = 1, n2 = 2, r1 = 3, r2 = 4, t = 5. -/
theorem lens_thick_det_one_witness :
    (1 : ℝ) ≠ 0 ∧ (2 : ℝ) ≠ 0 ∧ (3 : ℝ) ≠ 0 ∧ (4 : ℝ) ≠ 0 ∧
      (lens_thick (1 : ℝ) 2 3 4 5).det = 1 :=
  ⟨one_ne_zero, two_ne_zero, three_ne_zero, four_ne_zero,
    lens_thick_det_one 1 2 3 4 5 one_ne_zero two_ne_zero three_ne_zero four_ne_zero⟩

/-- Counterexample to claim C4: at wavelength = 1, w0 = 1, n = 1 the
Rayleigh-range function returns pi, not w0 ^ 2 / (pi * wavelength / n). -/
theorem get_gaussian_beams_Z0_counterexample :
    get_gaussian_beams_Z0 1 1 1 ≠ 1 ^ 2 / (Real.pi * 1 / 1) := by
  simp only [get_gaussian_beams_Z0]
  norm_num
  intro h
  have h2 : Real.pi * Real.pi = 1 := by
    field_simp at h
    linarith [h]
  nlinarith [Real.pi_gt_three]

/-- Claim C4 amended: for wavelength and n nonzero, the Rayleigh-range
function returns n * w0 ^ 2 * pi / wavelength. -/
theorem get_gaussian_beams_Z0_formula (wavelength w0 n : ℝ)
    (hw : wavelength ≠ 0) (hn : n ≠ 0) :
    get_gaussian_beams_Z0 wavelength w0 n = n * w0 ^ 2 * Real.pi / wavelength := by
  simp only [get_gaussian_beams_Z0]
  field_simp
  ring

/-- Witness for the amended claim C4 at wavelength = 1, w0 = 1, n = 1. -/
theorem get_gaussian_beams_Z0_formula_witness :
    (1 : ℝ) ≠ 0 ∧ (1 : ℝ) ≠ 0 ∧
      get_gaussian_beams_Z0 1 1 1 = 1 * 1 ^ 2 * Real.pi / 1 :=
  ⟨one_ne_zero, one_ne_zero,
    get_gaussian_beams_Z0_formula 1 1 1 one_ne_zero one_ne_zero⟩

/-- Claim C5: for positive wavelength, w0 and n, feeding the Rayleigh
range back into the waist-radius function recovers w0 exactly. -/
theorem gaussian_beams_roundtrip (wavelength w0 n : ℝ)
    (hw : 0 < wavelength) (h0 : 0 < w0) (hn : 0 < n) :
    get_gaussian_beams_W0 wavelength (get_gaussian_beams_Z0 wavelength w0 n) n = w0 := by
  simp only [get_gaussian_beams_W0, get_gaussian_beams_Z0]
  have hw' : wavelength ≠ 0 := ne_of_gt hw
  have hn' : n ≠ 0 := ne_of_gt hn
  have harg : wavelength / n * (w0 ^ 2 * Real.pi / (wavelength / n)) / Real.pi
      = w0 ^ 2 := by
    rw [mul_div_cancel₀ _ (div_ne_zero hw' hn'), mul_div_assoc,
      div_self Real.pi_ne_zero, mul_one]
  rw [harg, Real.sqrt_sq h0.le]

/-- Witness for claim C5 at wavelength = 1, w0 = 1, n = 1. -/
theorem gaussian_beams_roundtrip_witness :
    (0 : ℝ) < 1 ∧ (0 : ℝ) < 1 ∧ (0 : ℝ) < 1 ∧
      get_gaussian_beams_W0 1 (get_gaussian_beams_Z0 1 1 1) 1 = 1 :=
  ⟨one_pos, one_pos, one_pos, gaussian_beams_roundtrip 1 1 1 one_pos one_pos one_pos⟩

/-- Claim C6: the thin-lens, propagation, mirror and curved-interface
matrices have determinant 1; the flat-interface matrix has determinant
n1 / n2. -/
theorem element_matrix_dets (f d Re n1 n2 : ℝ)
    (hf : f ≠ 0) (hRe : Re ≠ 0) (hn2 : n2 ≠ 0) :
    (lens_thin f).det = 1 ∧ (propagation d).det = 1 ∧
      (mirror : Mat2 ℝ).det = 1 ∧ (curved_interface Re).det = 1 ∧
      (interface n1 n2).det = n1 / n2 := by
  refine ⟨?_, ?_, ?_, ?_, ?_⟩ <;>
    simp [lens_thin, propagation, mirror, curved_interface, interface,
      Mat2.det, Mat2.eye]

/-- Witness for claim C6 at f = 2, d = 3, Re = 4, n1 = 1, n2 = 2. -/
theorem element_matrix_dets_witness :
    (2 : ℝ) ≠ 0 ∧ (4 : ℝ) ≠ 0 ∧ (2 : ℝ) ≠ 0 ∧
      ((lens_thin (2 : ℝ)).det = 1 ∧ (propagation (3 : ℝ)).det = 1 ∧
        (mirror : Mat2 ℝ).det = 1 ∧ (curved_interface (4 : ℝ)).det = 1 ∧
        (interface (1 : ℝ) 2).det = 1 / 2) :=
  ⟨two_ne_zero, four_ne_zero, two_ne_zero,
    element_matrix_dets 2 3 4 1 2 two_ne_zero four_ne_zero two_ne_zero⟩

/-- Claim C10: a thick lens of zero thickness equals the thin lens whose
focal length f satisfies the lensmaker equation
1/f = ((n2 - n1)/n1) * (1/r1 - 1/r2); in particular the composed matrix
has both diagonal entries 1 and upper-right entry 0. -/
theorem lens_thick_zero_is_thin (n1 n2 r1 r2 f : ℝ)
    (h1 : n1 ≠ 0) (h2 : n2 ≠ 0) (h3 : r1 ≠ 0) (h4 : r2 ≠ 0)
    (hlm : (n2 - n1) * (1 / r1 - 1 / r2) ≠ 0)
    (hf : 1 / f = (n2 - n1) / n1 * (1 / r1 - 1 / r2)) :
    lens_thick n1 n2 r1 r2 0 = lens_thin f ∧
      (lens_thick n1 n2 r1 r2 0).a = 1 ∧ (lens_thick n1 n2 r1 r2 0).b = 0 ∧
      (lens_thick n1 n2 r1 r2 0).d = 1 := by
  have key : lens_thick n1 n2 r1 r2 0 = lens_thin f := by
    have hc : -1 / f = -((n2 - n1) / n1 * (1 / r1 - 1 / r2)) := by
      rw [neg_div, hf]
    ext
    · simp [lens_thick, Mat2.mul_def, lens_thin]
    · simp [lens_thick, Mat2.mul_def, lens_thin]
    · simp only [lens_thick, Mat2.mul_def, lens_thin]
      rw [hc]
      field_simp
      ring
    · simp only [lens_thick, Mat2.mul_def, lens_thin]
      field_simp
  refine ⟨key, ?_, ?_, ?_⟩ <;> rw [key] <;> simp [lens_thin]

/-- Witness for claim C10 at n1 = 1, n2 = 2, r1 = 1, r2 = -1, f = 1/2. -/
theorem lens_thick_zero_is_thin_witness :
    (1 : ℝ) ≠ 0 ∧ (2 : ℝ) ≠ 0 ∧ (1 : ℝ) ≠ 0 ∧ (-1 : ℝ) ≠ 0 ∧
      ((2 : ℝ) - 1) * (1 / 1 - 1 / (-1)) ≠ 0 ∧
      (1 : ℝ) / (1 / 2) = ((2 : ℝ) - 1) / 1 * (1 / 1 - 1 / (-1)) ∧
      (lens_thick (1 : ℝ) 2 1 (-1) 0 = lens_thin (1 / 2) ∧
        (lens_thick (1 : ℝ) 2 1 (-1) 0).a = 1 ∧
        (lens_thick (1 : ℝ) 2 1 (-1) 0).b = 0 ∧
        (lens_thick (1 : ℝ) 2 1 (-1) 0).d = 1) :=
  ⟨one_ne_zero, two_ne_zero, one_ne_zero, by norm_num, by norm_num, by norm_num,
    lens_thick_zero_is_thin 1 2 1 (-1) (1 / 2) one_ne_zero two_ne_zero
      one_ne_zero (by norm_num) (by norm_num) (by norm_num)⟩
